import Mathlib

/-!
Verification of the fluxion-ai backend core: the multi-tenant inventory
ledger (`Inventory.addMovement`, `Inventory.syncInventory`), the FIFO
valuation query (`Inventory.getFIFOValuation`), the insight generator
(`Insights.create`, `Insights.generateInventoryInsights`), the tenant
resolution middleware (`tenantMiddleware`) and the tenant administration
service (`TenantService.deleteTenant` and its DELETE route).

The JavaScript source is embedded shallowly: the relational store becomes
explicit state records, `DECIMAL` money columns become `ℚ`, integer stock
becomes `ℤ`, SQL `NULL` becomes `Option`, and a thrown JS `Error` becomes
`Except String`.  Each definition mirrors one function of the source,
keeping its names and its control flow.
-/

namespace Fluxion

/-- Character-list version of "starts with". -/
def startsWithChars : List Char → List Char → Bool
  | _, [] => true
  | [], _ :: _ => false
  | c :: cs, p :: ps => c == p && startsWithChars cs ps

/-- Character-list version of "occurs somewhere". -/
def hasSubChars : List Char → List Char → Bool
  | [], pat => pat.isEmpty
  | c :: cs, pat => startsWithChars (c :: cs) pat || hasSubChars cs pat

/-- JS `String.prototype.includes(pat)`. -/
def containsSubstr (s pat : String) : Bool :=
  hasSubChars s.data pat.data

/-- JS `Math.abs` on an integer. -/
def intAbs (q : Int) : Int := (q.natAbs : Int)

/-- SQL `ROUND(x, 2)` on a `NUMERIC` value (half away from zero; for the
non-negative money values handled here this agrees with `round`). -/
def round2 (x : ℚ) : ℚ := (round (x * 100) : ℤ) / 100

/-- A row of the per-tenant `products` table (`tenant-base-schema.sql`). -/
structure ProductRec where
  sku : String
  name : String
  category : String
  brand : String
  cost_price : ℚ
  selling_price : ℚ
  current_stock : Int
  min_stock_threshold : Int
  max_stock_threshold : Int
  active : Bool
deriving DecidableEq, Repr

/-- A row of the per-tenant `inventory_movements` table. -/
structure Movement where
  product_id : Nat
  movement_type : String
  quantity : Int
  previous_stock : Int
  new_stock : Int
  cost_per_unit : Option ℚ
  reference_type : String
  reference_id : Option Nat
  notes : String
deriving DecidableEq, Repr

/-- The body of a `POST /movements` request (`movementData` in
`Inventory.addMovement`). -/
structure MovementData where
  product_id : Nat
  movement_type : String
  quantity : Int
  cost_per_unit : Option ℚ
  reference_type : String
  reference_id : Option Nat
  notes : String
deriving DecidableEq, Repr

/-- One tenant partition's inventory tables: `products` keyed by the
serial primary key, and the append-only `inventory_movements` rows in
insertion order (oldest first). -/
structure InventoryState where
  products : Nat → Option ProductRec
  movements : List Movement

namespace Inventory

/-- `UPDATE products SET current_stock = newStock WHERE id = pid`. -/
def updateStock (s : InventoryState) (pid : Nat) (newStock : Int) :
    InventoryState :=
  { s with products := fun i =>
      if i = pid then Option.map (fun p => { p with current_stock := newStock }) (s.products pid) else s.products i }

/-- The `switch (movement_type)` of `Inventory.addMovement`: computes the
signed `stockChange`, or throws.  `currentStock` is the stock read by the
preceding `SELECT`. -/
def stockChangeFor (movement_type : String) (quantity currentStock : Int) :
    Except String Int :=
  if movement_type = "entrada" then
    .ok (intAbs quantity)
  else if movement_type = "salida" then
    let stockChange := -intAbs quantity
    if currentStock + stockChange < 0 then
      .error "No hay suficiente stock para realizar esta salida"
    else .ok stockChange
  else if movement_type = "ajuste" then
    if currentStock + quantity < 0 then
      .error "El ajuste resultaría en stock negativo"
    else .ok quantity
  else if movement_type = "sincronizacion" then
    .ok quantity
  else .error "Tipo de movimiento no válido"

/-- The try-block of `Inventory.addMovement`: read the product's current
stock, compute the new stock by movement type, insert the movement row and
update the product — or throw, in which case nothing was written (every
throw precedes the INSERT). -/
def addMovementInner (s : InventoryState) (d : MovementData) :
    Except String (InventoryState × Movement) :=
  match s.products d.product_id with
  | none => .error ("Producto con ID " ++ toString d.product_id ++
      " no encontrado")
  | some p =>
    let currentStock := p.current_stock
    let previousStock := currentStock
    match stockChangeFor d.movement_type d.quantity currentStock with
    | .error e => .error e
    | .ok stockChange =>
      let newStock := currentStock + stockChange
      let m : Movement :=
        { product_id := d.product_id
          movement_type := d.movement_type
          quantity := stockChange
          previous_stock := previousStock
          new_stock := newStock
          cost_per_unit := d.cost_per_unit
          reference_type := d.reference_type
          reference_id := d.reference_id
          notes := d.notes }
      let s' := updateStock { s with movements := s.movements ++ [m] }
        d.product_id newStock
      .ok (s', m)

/-- `Inventory.addMovement`: the try-block above, with the catch block
rewrapping any thrown message. -/
def addMovement (s : InventoryState) (d : MovementData) :
    Except String (InventoryState × Movement) :=
  (addMovementInner s d).mapError
    (fun e => "Error registrando movimiento: " ++ e)

/-- Run a sequence of movement requests; a request whose `addMovement`
throws leaves the state unchanged (the error is thrown before any write). -/
def runMovements (s : InventoryState) (ds : List MovementData) :
    InventoryState :=
  ds.foldl (fun st d =>
    match addMovement st d with
    | .ok r => r.1
    | .error _ => st) s

/-- The movement rows of one product, in insertion order. -/
def productMovements (s : InventoryState) (pid : Nat) : List Movement :=
  s.movements.filter (fun m => m.product_id == pid)

/-- Sum of the signed stored deltas (`quantity` column) of a movement
list. -/
def sumDeltas (ms : List Movement) : Int :=
  (ms.map (fun m => m.quantity)).sum

end Inventory

/-! ### Ledger invariant (claim C1 machinery) -/

/-- The consistency invariant relating a product's derived `current_stock`
to its slice of the movement ledger: every row satisfies
`new_stock = previous_stock + quantity`, the stock equals the creation
stock `s0` plus the sum of recorded deltas, and the latest row's
`new_stock` equals the stored stock. -/
def LedgerInvariant (pid : Nat) (s0 : Int) (s : InventoryState) : Prop :=
  (∀ m ∈ Inventory.productMovements s pid,
      m.new_stock = m.previous_stock + m.quantity) ∧
  ∀ p, s.products pid = some p →
    p.current_stock = s0 + Inventory.sumDeltas (Inventory.productMovements s pid) ∧
    ∀ m, (Inventory.productMovements s pid).getLast? = some m →
      m.new_stock = p.current_stock

theorem addMovement_ok_iff {s : InventoryState} {d : MovementData} {r} :
    Inventory.addMovement s d = .ok r ↔ Inventory.addMovementInner s d = .ok r := by
  unfold Inventory.addMovement
  cases h : Inventory.addMovementInner s d <;> simp [Except.mapError]

/-- Anatomy of a successful `addMovement`: the product existed, the switch
produced a `stockChange`, the movement row was appended and only this
product's stock was rewritten. -/
theorem addMovementInner_ok {s : InventoryState} {d : MovementData}
    {s' : InventoryState} {m : Movement}
    (h : Inventory.addMovementInner s d = .ok (s', m)) :
    ∃ p sc, s.products d.product_id = some p ∧
      Inventory.stockChangeFor d.movement_type d.quantity p.current_stock = .ok sc ∧
      m.product_id = d.product_id ∧
      m.quantity = sc ∧
      m.previous_stock = p.current_stock ∧
      m.new_stock = p.current_stock + sc ∧
      m.cost_per_unit = d.cost_per_unit ∧
      m.movement_type = d.movement_type ∧
      s'.movements = s.movements ++ [m] ∧
      (∀ i, i ≠ d.product_id → s'.products i = s.products i) ∧
      s'.products d.product_id =
        some { p with current_stock := p.current_stock + sc } := by
  unfold Inventory.addMovementInner at h
  cases hl : s.products d.product_id with
  | none => rw [hl] at h; simp at h
  | some p =>
    rw [hl] at h
    cases hsc : Inventory.stockChangeFor d.movement_type d.quantity p.current_stock with
    | error e => simp only [hsc] at h; simp at h
    | ok sc =>
      simp only [hsc] at h
      simp only [Except.ok.injEq, Prod.mk.injEq] at h
      obtain ⟨hs', hm⟩ := h
      subst hs'
      subst hm
      refine ⟨p, sc, rfl, hsc, rfl, rfl, rfl, rfl, rfl, rfl, ?_, ?_, ?_⟩
      · simp [Inventory.updateStock]
      · intro i hi
        simp [Inventory.updateStock, hi]
      · simp [Inventory.updateStock, hl]

theorem productMovements_after {s : InventoryState} {d : MovementData}
    {s' : InventoryState} {m : Movement} (pid : Nat)
    (h : Inventory.addMovementInner s d = .ok (s', m)) :
    Inventory.productMovements s' pid =
      Inventory.productMovements s pid ++
        (if m.product_id = pid then [m] else []) := by
  obtain ⟨p, sc, _, _, _, _, _, _, _, _, hmov, _, _⟩ := addMovementInner_ok h
  by_cases hmp : m.product_id = pid <;>
    simp [Inventory.productMovements, hmov, List.filter_append, hmp]

/-- One `runMovements` step preserves the ledger invariant. -/
theorem step_preserves {pid : Nat} {s0 : Int} {s : InventoryState}
    (d : MovementData) (h : LedgerInvariant pid s0 s) :
    LedgerInvariant pid s0
      (match Inventory.addMovement s d with
        | .ok r => r.1
        | .error _ => s) := by
  cases hr : Inventory.addMovement s d with
  | error e => simpa using h
  | ok r =>
    obtain ⟨s', m⟩ := r
    have hinner := addMovement_ok_iff.mp hr
    obtain ⟨p, sc, hl, hsc, hmpid, hmq, hmprev, hmnew, _, _, hmov, hother, hupd⟩ :=
      addMovementInner_ok hinner
    have hpm := productMovements_after pid hinner
    by_cases hd : m.product_id = pid
    · rw [if_pos hd] at hpm
      have hdp : d.product_id = pid := by rw [← hmpid, hd]
      have hsum : Inventory.sumDeltas (Inventory.productMovements s' pid) =
          Inventory.sumDeltas (Inventory.productMovements s pid) + sc := by
        rw [hpm]
        simp [Inventory.sumDeltas, hmq]
      constructor
      · intro m' hm'
        rw [hpm] at hm'
        rcases List.mem_append.mp hm' with hold | hnewm
        · exact h.1 m' hold
        · have hm'm : m' = m := List.mem_singleton.mp hnewm
          subst hm'm
          rw [hmnew, hmprev, hmq]
      · intro p' hp'
        rw [hdp] at hupd
        rw [hupd] at hp'
        have hp'eq : { p with current_stock := p.current_stock + sc } = p' :=
          Option.some.inj hp'
        subst hp'eq
        have hbase := (h.2 p (hdp ▸ hl)).1
        constructor
        · rw [hsum, hbase]
          ring
        · intro mlast hlast
          rw [hpm, List.getLast?_concat] at hlast
          have hml : m = mlast := Option.some.inj hlast
          subst hml
          rw [hmnew]
    · rw [if_neg hd] at hpm
      rw [List.append_nil] at hpm
      have hdp : pid ≠ d.product_id := by rw [← hmpid]; exact fun hEq => hd hEq.symm
      have hprod := hother pid hdp
      constructor
      · intro m' hm'
        rw [hpm] at hm'
        exact h.1 m' hm'
      · intro p' hp'
        rw [hprod] at hp'
        rw [hpm]
        exact h.2 p' hp'

/-- `runMovements` preserves the ledger invariant. -/
theorem run_preserves {pid : Nat} {s0 : Int} (ds : List MovementData)
    {s : InventoryState} (h : LedgerInvariant pid s0 s) :
    LedgerInvariant pid s0 (Inventory.runMovements s ds) := by
  induction ds generalizing s with
  | nil => simpa [Inventory.runMovements] using h
  | cons d rest ih =>
    have h1 := @step_preserves pid s0 s d h
    have : Inventory.runMovements s (d :: rest) =
        Inventory.runMovements
          (match Inventory.addMovement s d with
            | .ok r => r.1
            | .error _ => s) rest := by
      simp [Inventory.runMovements]
    rw [this]
    exact ih h1

/-! ### Route layer for movements (`inventoryRoutes.cjs`) -/

namespace Routes

/-- The handler of `POST /api/inventory/movements`: required-field check
(JS truthiness: `0` and the empty string are falsy), then `addMovement`,
then the catch-block `error.message.includes(...)` mapping.  Returns the
resulting state, the HTTP status, and the machine-readable error code. -/
def postMovement (s : InventoryState) (d : MovementData) :
    InventoryState × Nat × Option String :=
  if d.product_id == 0 || d.movement_type == "" || d.quantity == 0 ||
      d.reference_type == "" then
    (s, 400, some "VALIDATION_ERROR")
  else
    match Inventory.addMovement s d with
    | .ok r => (r.1, 201, none)
    | .error msg =>
      if containsSubstr msg "no encontrado" then
        (s, 404, some "PRODUCT_NOT_FOUND")
      else if containsSubstr msg "No hay suficiente stock" then
        (s, 400, some "INSUFFICIENT_STOCK")
      else
        (s, 500, some "ADD_MOVEMENT_ERROR")

end Routes

/-! ### Concrete fixtures used by witnesses and counterexamples -/

/-- Example product: stock 100, cost 2.00, selling 3.50. -/
def productEx : ProductRec :=
  { sku := "SKU-1", name := "Producto Uno", category := "general",
    brand := "ACME", cost_price := 2, selling_price := 7/2,
    current_stock := 100, min_stock_threshold := 10,
    max_stock_threshold := 1000, active := true }

/-- Example partition with one product (id 1) and an empty ledger. -/
def stateEx : InventoryState :=
  { products := fun i => if i = 1 then some productEx else none,
    movements := [] }

/-- An inbound movement request of 50 units at cost 2. -/
def dataIn50 : MovementData :=
  { product_id := 1, movement_type := "entrada", quantity := 50,
    cost_per_unit := some 2, reference_type := "compra",
    reference_id := none, notes := "" }

/-- An outbound movement request of 30 units referencing a sale. -/
def dataOut30 : MovementData :=
  { product_id := 1, movement_type := "salida", quantity := 30,
    cost_per_unit := none, reference_type := "venta",
    reference_id := some 7, notes := "" }

/-! ### Claims C1 and C2 -/

/-- **C1**: starting from a freshly created product (stock `s0`, no
movements), after any sequence of `addMovement` calls every recorded row
satisfies `new_stock = previous_stock + quantity`, the product's
`current_stock` equals the creation stock plus the sum of all recorded
deltas, and the latest movement's `new_stock` equals the current stock. -/
theorem ledger_stock_consistency
    (s : InventoryState) (pid : Nat) (p0 : ProductRec)
    (hp : s.products pid = some p0)
    (hm : Inventory.productMovements s pid = [])
    (ds : List MovementData) (p' : ProductRec)
    (hp' : (Inventory.runMovements s ds).products pid = some p') :
    (∀ m ∈ Inventory.productMovements (Inventory.runMovements s ds) pid,
        m.new_stock = m.previous_stock + m.quantity) ∧
    p'.current_stock = p0.current_stock +
      Inventory.sumDeltas
        (Inventory.productMovements (Inventory.runMovements s ds) pid) ∧
    ∀ m, (Inventory.productMovements
        (Inventory.runMovements s ds) pid).getLast? = some m →
      m.new_stock = p'.current_stock := by
  have hbase : LedgerInvariant pid p0.current_stock s := by
    constructor
    · intro m hmem
      rw [hm] at hmem
      simp at hmem
    · intro p hp2
      rw [hp] at hp2
      have hpp : p0 = p := Option.some.inj hp2
      subst hpp
      constructor
      · rw [hm]
        simp [Inventory.sumDeltas]
      · intro m hlast
        rw [hm] at hlast
        simp at hlast
  have hrun := run_preserves ds hbase
  exact ⟨hrun.1, (hrun.2 p' hp').1, (hrun.2 p' hp').2⟩

/-- Witness for C1: create product with stock 100, receive 50, ship 30;
the stored stock 120 equals 100 plus the recorded deltas. -/
theorem ledger_stock_consistency_witness :
    ({ productEx with current_stock := 120 } : ProductRec).current_stock =
      productEx.current_stock +
        Inventory.sumDeltas (Inventory.productMovements
          (Inventory.runMovements stateEx [dataIn50, dataOut30]) 1) :=
  (ledger_stock_consistency stateEx 1 productEx rfl rfl
    [dataIn50, dataOut30] { productEx with current_stock := 120 }
    rfl).2.1

/-- **C2**: an outbound request whose quantity exceeds the current stock
makes `addMovement` throw, the route answers `400 INSUFFICIENT_STOCK`, and
neither the product stock nor the ledger is touched (the state returned by
the handler is the input state). -/
theorem outbound_insufficient_stock
    (s : InventoryState) (d : MovementData) (p : ProductRec)
    (hp : s.products d.product_id = some p)
    (hmt : d.movement_type = "salida")
    (hq0 : 0 < d.quantity) (hq : p.current_stock < d.quantity)
    (hpid : d.product_id ≠ 0) (hrt : d.reference_type ≠ "") :
    (∀ r, Inventory.addMovement s d ≠ .ok r) ∧
    Routes.postMovement s d = (s, 400, some "INSUFFICIENT_STOCK") := by
  have habs : intAbs d.quantity = d.quantity :=
    Int.natAbs_of_nonneg (le_of_lt hq0)
  have hsc : Inventory.stockChangeFor d.movement_type d.quantity
      p.current_stock =
      .error "No hay suficiente stock para realizar esta salida" := by
    rw [hmt]
    simp only [Inventory.stockChangeFor]
    rw [if_neg (by decide : ¬(("salida" : String) = "entrada"))]
    rw [if_pos trivial]
    rw [if_pos (by rw [habs]; omega)]
  have hinner : Inventory.addMovementInner s d =
      .error "No hay suficiente stock para realizar esta salida" := by
    unfold Inventory.addMovementInner
    rw [hp]
    simp only [hsc]
  have herr : Inventory.addMovement s d =
      .error ("Error registrando movimiento: " ++
        "No hay suficiente stock para realizar esta salida") := by
    unfold Inventory.addMovement
    rw [hinner]
    rfl
  have hval : (d.product_id == 0 || d.movement_type == "" ||
      d.quantity == 0 || d.reference_type == "") = false := by
    simp only [Bool.or_eq_false_iff, beq_eq_false_iff_ne, ne_eq]
    refine ⟨⟨⟨hpid, ?_⟩, ?_⟩, hrt⟩
    · rw [hmt]; decide
    · omega
  constructor
  · intro r hcontra
    rw [herr] at hcontra
    simp at hcontra
  · unfold Routes.postMovement
    rw [hval]
    simp only [Bool.false_eq_true, if_false, herr]
    rw [if_neg (by decide), if_pos (by decide)]

/-- Witness for C2: shipping 130 units against a stock of 100 yields
`400 INSUFFICIENT_STOCK` and leaves the state untouched. -/
theorem outbound_insufficient_stock_witness :
    Routes.postMovement stateEx ⟨1, "salida", 130, none, "venta", none, ""⟩ =
      (stateEx, 400, some "INSUFFICIENT_STOCK") :=
  (outbound_insufficient_stock stateEx
    ⟨1, "salida", 130, none, "venta", none, ""⟩ productEx rfl rfl
    (by decide) (by decide) (by decide) (by decide)).2

/-! ### Claim C3: concurrency of outbound movements

`addMovement` reads the stock with a plain `SELECT` (no `FOR UPDATE`), and
`BEGIN`/`COMMIT` are issued through `query` on a shared `pg` pool as
independent statements, so two concurrent calls on the same product may
both read the same committed stock before either writes.  The model below
executes two outbound calls under the schedule read₁ read₂ write₁ write₂;
each write replays the salida branch of `addMovement` (the same
`stockChangeFor`) against the stock value its own SELECT returned. -/

namespace Concurrency

/-- The `SELECT current_stock FROM products WHERE id = $1` of
`addMovement`: an unlocked read. -/
def readStock (s : InventoryState) (pid : Nat) : Option Int :=
  (s.products pid).map (fun p => p.current_stock)

/-- The check-insert-update tail of an outbound `addMovement`, evaluated
against the (possibly stale) stock `readVal` its own SELECT returned. -/
def outboundWrite (s : InventoryState) (pid : Nat) (readVal q : Int) :
    InventoryState × Bool :=
  match Inventory.stockChangeFor "salida" q readVal with
  | .error _ => (s, false)
  | .ok stockChange =>
    let newStock := readVal + stockChange
    let m : Movement :=
      { product_id := pid, movement_type := "salida",
        quantity := stockChange, previous_stock := readVal,
        new_stock := newStock, cost_per_unit := none,
        reference_type := "venta", reference_id := none, notes := "" }
    (Inventory.updateStock { s with movements := s.movements ++ [m] }
      pid newStock, true)

/-- Two concurrent outbound calls on one product, interleaved so that both
SELECTs run before either write — the schedule the missing row lock and
the pool-scattered BEGIN/COMMIT fail to exclude.  Returns the final state
and each call's success flag. -/
def twoStaleOutbound (s : InventoryState) (pid : Nat) (q1 q2 : Int) :
    InventoryState × Bool × Bool :=
  match readStock s pid, readStock s pid with
  | some r1, some r2 =>
    let w1 := outboundWrite s pid r1 q1
    let w2 := outboundWrite w1.1 pid r2 q2
    (w2.1, w1.2, w2.2)
  | _, _ => (s, false, false)

end Concurrency

/-- **C3** (evidence of the code bug): with stock 100, two concurrent
outbound calls of 60 units each, whose reads interleave before the writes,
both succeed: 120 units of outbound are recorded against 100 available
(creation stock plus recorded deltas is −20), while the stored stock ends
at 40, inconsistent with the ledger — refuting "at most one success per
unit of stock" and the claimed serialized read-modify-write unit. -/
theorem concurrent_outbound_check_then_act_race :
    (Concurrency.twoStaleOutbound stateEx 1 60 60).2.1 = true ∧
    (Concurrency.twoStaleOutbound stateEx 1 60 60).2.2 = true ∧
    Inventory.sumDeltas (Inventory.productMovements
      (Concurrency.twoStaleOutbound stateEx 1 60 60).1 1) = -120 ∧
    productEx.current_stock + Inventory.sumDeltas (Inventory.productMovements
      (Concurrency.twoStaleOutbound stateEx 1 60 60).1 1) = -20 ∧
    ((Concurrency.twoStaleOutbound stateEx 1 60 60).1.products 1).map
      (fun p => p.current_stock) = some 40 := by
  refine ⟨rfl, rfl, rfl, rfl, rfl⟩

/-! ### Claim C4: external-sync movements -/

/-- **C4 counterexample**: a `sincronizacion` movement of −110 against a
stock of 100 is accepted and stores a *negative* stock of −10 — the code
neither clamps the result to ≥ 0 nor records any warning, refuting the
claim that the resulting stock is clamped. -/
theorem external_sync_not_clamped_counterexample :
    (Inventory.addMovement stateEx
        ⟨1, "sincronizacion", -110, none, "sync", none, ""⟩).toOption.map
      (fun r => (((r.1.products 1).map (fun p => p.current_stock)),
        r.2.new_stock)) = some (some (-10), -10) ∧
    ¬((-10 : Int) ≥ 0) := by
  refine ⟨rfl, by decide⟩

/-- **C4 amended**: an external-sync movement applies the signed quantity
exactly as given, with no negativity check; the resulting stock
`previous + quantity` is stored as computed (negative results included),
and no warning is recorded anywhere. -/
theorem external_sync_applies_quantity_as_given
    (s : InventoryState) (d : MovementData) (p : ProductRec)
    (hp : s.products d.product_id = some p)
    (hmt : d.movement_type = "sincronizacion") :
    ∃ s' m, Inventory.addMovement s d = .ok (s', m) ∧
      m.quantity = d.quantity ∧
      m.previous_stock = p.current_stock ∧
      m.new_stock = p.current_stock + d.quantity ∧
      s'.products d.product_id =
        some { p with current_stock := p.current_stock + d.quantity } := by
  have hsc : Inventory.stockChangeFor d.movement_type d.quantity
      p.current_stock = .ok d.quantity := by
    rw [hmt]
    simp [Inventory.stockChangeFor]
  have hinner : Inventory.addMovementInner s d = .ok
      (Inventory.updateStock
        { s with movements := s.movements ++
            [{ product_id := d.product_id, movement_type := d.movement_type,
               quantity := d.quantity, previous_stock := p.current_stock,
               new_stock := p.current_stock + d.quantity,
               cost_per_unit := d.cost_per_unit,
               reference_type := d.reference_type,
               reference_id := d.reference_id, notes := d.notes }] }
        d.product_id (p.current_stock + d.quantity),
       { product_id := d.product_id, movement_type := d.movement_type,
         quantity := d.quantity, previous_stock := p.current_stock,
         new_stock := p.current_stock + d.quantity,
         cost_per_unit := d.cost_per_unit,
         reference_type := d.reference_type,
         reference_id := d.reference_id, notes := d.notes }) := by
    unfold Inventory.addMovementInner
    rw [hp]
    simp only [hsc]
  refine ⟨Inventory.updateStock
      { s with movements := s.movements ++
          [{ product_id := d.product_id, movement_type := d.movement_type,
             quantity := d.quantity, previous_stock := p.current_stock,
             new_stock := p.current_stock + d.quantity,
             cost_per_unit := d.cost_per_unit,
             reference_type := d.reference_type,
             reference_id := d.reference_id, notes := d.notes }] }
      d.product_id (p.current_stock + d.quantity),
    { product_id := d.product_id, movement_type := d.movement_type,
      quantity := d.quantity, previous_stock := p.current_stock,
      new_stock := p.current_stock + d.quantity,
      cost_per_unit := d.cost_per_unit,
      reference_type := d.reference_type,
      reference_id := d.reference_id, notes := d.notes }, ?_, rfl, rfl, rfl, ?_⟩
  · unfold Inventory.addMovement
    rw [hinner]
    rfl
  · simp [Inventory.updateStock, hp]

/-- Witness for the amended C4: syncing product 1 (stock 100) down by 110
stores stock −10. -/
theorem external_sync_applies_quantity_witness :
    ∃ s' m, Inventory.addMovement stateEx
        ⟨1, "sincronizacion", -110, none, "sync", none, ""⟩ = .ok (s', m) ∧
      m.quantity = -110 ∧
      m.previous_stock = productEx.current_stock ∧
      m.new_stock = productEx.current_stock + -110 ∧
      s'.products 1 =
        some { productEx with
          current_stock := productEx.current_stock + -110 } :=
  external_sync_applies_quantity_as_given stateEx
    ⟨1, "sincronizacion", -110, none, "sync", none, ""⟩ productEx rfl rfl

/-! ### Claim C5: FIFO valuation (`Inventory.getFIFOValuation`) -/

namespace Inventory

/-- The window subquery of `getFIFOValuation`: the product's `entrada`
rows with `quantity > 0`, ordered `created_at DESC` (most recent first —
the reverse of insertion order). -/
def entradaLayers (movs : List Movement) (pid : Nat) : List Movement :=
  (movs.filter (fun m => m.product_id == pid &&
    m.movement_type == "entrada" && decide (0 < m.quantity))).reverse

/-- `SUM(ABS(quantity)) OVER (ORDER BY created_at DESC ROWS UNBOUNDED
PRECEDING)`: each row paired with the running total so far. -/
def withRunning : List Movement → Int → List (Movement × Int)
  | [], _ => []
  | m :: rest, acc =>
    let r := acc + intAbs m.quantity
    (m, r) :: withRunning rest r

/-- The correlated subquery
`SELECT COALESCE(SUM(ABS(quantity)), 0) ... movement_type = 'entrada' AND
quantity > 0`: the total inbound quantity. -/
def totalEntradas (movs : List Movement) (pid : Nat) : Int :=
  ((entradaLayers movs pid).map (fun m => intAbs m.quantity)).sum

/-- The CASE expression inside the FIFO `SUM`, for one window row with
running total `running`; a NULL `cost_per_unit` falls back to
`p.cost_price` (`COALESCE`). -/
def fifoContribution (p : ProductRec) (m : Movement) (running : Int) : ℚ :=
  if running ≤ p.current_stock then
    (intAbs m.quantity : ℚ) * m.cost_per_unit.getD p.cost_price
  else if running - intAbs m.quantity < p.current_stock then
    ((p.current_stock - (running - intAbs m.quantity) : Int) : ℚ) *
      m.cost_per_unit.getD p.cost_price
  else 0

/-- `SUM(CASE ...)` over the window rows passing
`WHERE running_stock > total - current_stock`; `none` models the SQL NULL
produced when no row passes. -/
def fifoSum (p : ProductRec) (movs : List Movement) (pid : Nat) : Option ℚ :=
  let rows := (withRunning (entradaLayers movs pid) 0).filter
    (fun mr => decide (totalEntradas movs pid - p.current_stock < mr.2))
  if rows.isEmpty then none
  else some ((rows.map (fun mr => fifoContribution p mr.1 mr.2)).sum)

/-- The `fifo_valuation` column of `getFIFOValuation` for one product:
`CASE WHEN current_stock > 0 THEN COALESCE(SUM(...), current_stock *
cost_price) ELSE 0 END`, rounded to two decimals by the outer SELECT. -/
def fifoValuation (p : ProductRec) (movs : List Movement) (pid : Nat) : ℚ :=
  round2 (if 0 < p.current_stock then
    (fifoSum p movs pid).getD ((p.current_stock : ℚ) * p.cost_price)
  else 0)

end Inventory

/-- A product whose recorded inbound history (50 units) covers less than
its current stock of 80; unit cost 5.00. -/
def productHist : ProductRec :=
  { sku := "SKU-2", name := "Producto Dos", category := "general",
    brand := "ACME", cost_price := 5, selling_price := 8,
    current_stock := 80, min_stock_threshold := 10,
    max_stock_threshold := 1000, active := true }

/-- Like `productHist` but with stock 50, fully covered by the single
inbound layer. -/
def productCov : ProductRec :=
  { productHist with sku := "SKU-3", current_stock := 50 }

/-- A single recorded inbound movement of 50 units at unit cost 2.00. -/
def movIn50c2 : Movement :=
  { product_id := 2, movement_type := "entrada", quantity := 50,
    previous_stock := 30, new_stock := 80, cost_per_unit := some 2,
    reference_type := "compra", reference_id := none, notes := "" }

/-- **C5 counterexample**: product with stock 80, cost price 5, and a
single recorded inbound layer of only 50 units at cost 2 — insufficient
history to cover the stock.  The claim's fallback would give
`80 * 5 = 400`; the code instead sums the recorded layers and returns
`50 * 2 = 100`. -/
theorem fifo_insufficient_history_counterexample :
    Inventory.fifoValuation productHist [movIn50c2] 2 = 100 ∧
    ¬(Inventory.fifoValuation productHist [movIn50c2] 2 =
      (productHist.current_stock : ℚ) * productHist.cost_price) := by
  have h : Inventory.fifoValuation productHist [movIn50c2] 2 = 100 := by
    norm_num [Inventory.fifoValuation, Inventory.fifoSum,
      Inventory.entradaLayers, Inventory.withRunning,
      Inventory.totalEntradas, Inventory.fifoContribution, intAbs, round2,
      productHist, movIn50c2, List.filter]
  refine ⟨h, ?_⟩
  rw [h]
  norm_num [productHist]

/-- **C5 amended**: (1) for a product whose single recorded inbound layer
(cost `c`) covers its whole positive stock, the FIFO valuation is
`round2 (current_stock * c)`; (2) the fallback
`current_stock * cost_price` applies exactly when the product has *no*
recorded inbound rows at all (not merely insufficient ones). -/
theorem fifo_single_layer_and_empty_fallback :
    (∀ (p : ProductRec) (movs : List Movement) (pid : Nat)
        (m : Movement) (c : ℚ),
      Inventory.entradaLayers movs pid = [m] →
      m.cost_per_unit = some c →
      0 < p.current_stock →
      p.current_stock ≤ intAbs m.quantity →
      Inventory.fifoValuation p movs pid =
        round2 ((p.current_stock : ℚ) * c)) ∧
    (∀ (p : ProductRec) (movs : List Movement) (pid : Nat),
      Inventory.entradaLayers movs pid = [] →
      0 < p.current_stock →
      Inventory.fifoValuation p movs pid =
        round2 ((p.current_stock : ℚ) * p.cost_price)) := by
  constructor
  · intro p movs pid m c hlay hc hs hq
    have hT : Inventory.totalEntradas movs pid = intAbs m.quantity := by
      simp [Inventory.totalEntradas, hlay]
    have hcond : Inventory.totalEntradas movs pid - p.current_stock <
        0 + intAbs m.quantity := by
      rw [hT]; omega
    have hcontrib : Inventory.fifoContribution p m (intAbs m.quantity) =
        (p.current_stock : ℚ) * c := by
      unfold Inventory.fifoContribution
      rw [hc]
      rcases eq_or_lt_of_le hq with heq | hlt
      · rw [if_pos (by omega : intAbs m.quantity ≤ p.current_stock)]
        rw [heq]
        simp
      · rw [if_neg (by omega), if_pos (by omega)]
        have hz : (p.current_stock -
            (intAbs m.quantity - intAbs m.quantity) : Int) =
            p.current_stock := by omega
        rw [hz]
        simp
    have hsum : Inventory.fifoSum p movs pid =
        some ((p.current_stock : ℚ) * c) := by
      unfold Inventory.fifoSum
      rw [hlay]
      simp only [Inventory.withRunning, List.filter_cons, List.filter_nil,
        decide_eq_true_eq]
      rw [if_pos hcond]
      simp [hcontrib]
    unfold Inventory.fifoValuation
    rw [if_pos hs, hsum]
    rfl
  · intro p movs pid hlay hs
    unfold Inventory.fifoValuation Inventory.fifoSum
    rw [hlay]
    simp [Inventory.withRunning, if_pos hs]

/-- Witness for the amended C5: stock 50 fully covered by the single
inbound layer of 50 units at cost 2 values at `round2 (50 * 2)`. -/
theorem fifo_single_layer_witness :
    Inventory.fifoValuation productCov [movIn50c2] 2 =
      round2 ((productCov.current_stock : ℚ) * 2) :=
  fifo_single_layer_and_empty_fallback.1 productCov [movIn50c2] 2 movIn50c2 2
    (by decide) rfl (by decide) (by decide)

/-! ### Claim C6: bulk synchronization (`Inventory.syncInventory`) -/

/-- One element of the `sync_data` array of `POST /api/inventory/sync`. -/
structure SyncItem where
  product_id : Nat
  external_stock : Int
  cost_price : Option ℚ
  notes : Option String
deriving DecidableEq, Repr

/-- The `syncResults` accumulator of `Inventory.syncInventory`. -/
structure SyncReport where
  processed : Nat
  updated : Nat
  errors : List String
  movements_created : Nat
deriving DecidableEq, Repr

namespace Inventory

/-- `Inventory.syncInventory`: the `for (const item of syncData)` loop.
Per item: look the product up (collecting an error string and continuing
when absent), compute `difference = external_stock - currentStock`, and
when non-zero insert a `sincronizacion` movement and set the product's
stock to `external_stock`; zero differences only bump `processed`. -/
def syncInventory (s : InventoryState) :
    List SyncItem → InventoryState × SyncReport
  | [] => (s, { processed := 0, updated := 0, errors := [],
                movements_created := 0 })
  | item :: rest =>
    match s.products item.product_id with
    | none =>
      let r := syncInventory s rest
      (r.1, { r.2 with errors :=
        ("Producto con ID " ++ toString item.product_id ++
          " no encontrado") :: r.2.errors })
    | some p =>
      let currentStock := p.current_stock
      let difference := item.external_stock - currentStock
      if difference ≠ 0 then
        let m : Movement :=
          { product_id := item.product_id,
            movement_type := "sincronizacion",
            quantity := difference, previous_stock := currentStock,
            new_stock := item.external_stock,
            cost_per_unit := item.cost_price,
            reference_type := "sync", reference_id := none,
            notes := (item.notes.getD "Sincronización externa") ++
              " - Diferencia: " ++ toString difference }
        let s' := updateStock { s with movements := s.movements ++ [m] }
          item.product_id item.external_stock
        let r := syncInventory s' rest
        (r.1, { r.2 with processed := r.2.processed + 1, updated := r.2.updated + 1, movements_created := r.2.movements_created + 1 })
      else
        let r := syncInventory s rest
        (r.1, { r.2 with processed := r.2.processed + 1 })

end Inventory

theorem updateStock_products_self {s : InventoryState} {pid : Nat} {n : Int} :
    (Inventory.updateStock s pid n).products pid =
      (s.products pid).map (fun p => { p with current_stock := n }) := by
  simp [Inventory.updateStock]

theorem updateStock_products_other {s : InventoryState} {pid q : Nat}
    {n : Int} (h : q ≠ pid) :
    (Inventory.updateStock s pid n).products q = s.products q := by
  simp [Inventory.updateStock, h]

/-- `syncInventory` never creates products. -/
theorem syncInventory_products_none {items : List SyncItem}
    {s : InventoryState} {pid : Nat} (h : s.products pid = none) :
    (Inventory.syncInventory s items).1.products pid = none := by
  induction items generalizing s with
  | nil => simpa [Inventory.syncInventory] using h
  | cons i rest ih =>
    unfold Inventory.syncInventory
    cases hl : s.products i.product_id with
    | none => exact ih h
    | some p =>
      simp only []
      by_cases hd : i.external_stock - p.current_stock ≠ 0
      · rw [if_pos hd]
        refine ih ?_
        by_cases hq : pid = i.product_id
        · subst hq
          rw [updateStock_products_self]
          simp [h]
        · rw [updateStock_products_other hq]
          exact h
      · rw [if_neg hd]
        exact ih h

/-- Products not named in the batch are untouched by `syncInventory`. -/
theorem syncInventory_products_untouched {items : List SyncItem}
    {s : InventoryState} {pid : Nat}
    (h : pid ∉ items.map (fun i => i.product_id)) :
    (Inventory.syncInventory s items).1.products pid = s.products pid := by
  induction items generalizing s with
  | nil => rfl
  | cons i rest ih =>
    simp only [List.map_cons, List.mem_cons] at h
    push_neg at h
    obtain ⟨h1, h2⟩ := h
    unfold Inventory.syncInventory
    cases hl : s.products i.product_id with
    | none => exact ih h2
    | some p =>
      simp only []
      by_cases hd : i.external_stock - p.current_stock ≠ 0
      · rw [if_pos hd]
        rw [ih h2]
        exact updateStock_products_other h1
      · rw [if_neg hd]
        exact ih h2

/-- After a run over a batch with pairwise-distinct product ids, every
product named by the batch and present in the store holds exactly the
batch's `external_stock`. -/
theorem syncInventory_sets_stock {items : List SyncItem}
    (hnd : (items.map (fun i => i.product_id)).Nodup) :
    ∀ {s : InventoryState}, ∀ item ∈ items, ∀ p,
      s.products item.product_id = some p →
      ∃ p', (Inventory.syncInventory s items).1.products item.product_id =
          some p' ∧
        p'.current_stock = item.external_stock := by
  induction items with
  | nil =>
    intro s item h
    simp at h
  | cons i rest ih =>
    intro s item hitem p hp
    simp only [List.map_cons, List.nodup_cons] at hnd
    obtain ⟨hni, hndr⟩ := hnd
    rcases List.mem_cons.mp hitem with heq | hmem
    · subst heq
      unfold Inventory.syncInventory
      rw [hp]
      simp only []
      by_cases hd : item.external_stock - p.current_stock ≠ 0
      · rw [if_pos hd]
        refine ⟨{ p with current_stock := item.external_stock }, ?_, rfl⟩
        rw [syncInventory_products_untouched hni]
        rw [updateStock_products_self]
        simp [hp]
      · rw [if_neg hd]
        refine ⟨p, ?_, by omega⟩
        rw [syncInventory_products_untouched hni]
        exact hp
    · have hne : item.product_id ≠ i.product_id := by
        intro hc
        exact hni (hc ▸ List.mem_map_of_mem (fun x => x.product_id) hmem)
      unfold Inventory.syncInventory
      cases hl : s.products i.product_id with
      | none => exact ih hndr item hmem p hp
      | some q =>
        simp only []
        by_cases hd : i.external_stock - q.current_stock ≠ 0
        · rw [if_pos hd]
          refine ih hndr item hmem p ?_
          rw [updateStock_products_other hne]
          exact hp
        · rw [if_neg hd]
          exact ih hndr item hmem p hp

/-- A batch in which every present product already carries its
`external_stock` leaves the state unchanged and creates no movements. -/
theorem syncInventory_clean {items : List SyncItem} {s : InventoryState}
    (h : ∀ item ∈ items, ∀ p, s.products item.product_id = some p →
      p.current_stock = item.external_stock) :
    (Inventory.syncInventory s items).1 = s ∧
    (Inventory.syncInventory s items).2.movements_created = 0 ∧
    (Inventory.syncInventory s items).2.updated = 0 := by
  induction items with
  | nil => exact ⟨rfl, rfl, rfl⟩
  | cons i rest ih =>
    have hrest := ih (fun item hm => h item (List.mem_cons_of_mem i hm))
    unfold Inventory.syncInventory
    cases hl : s.products i.product_id with
    | none => exact hrest
    | some p =>
      have hz : i.external_stock - p.current_stock = 0 := by
        have := h i (List.mem_cons_self i rest) p hl
        omega
      simp only []
      rw [if_neg (by omega)]
      exact hrest

/-- **C6 counterexample**: with the batch `[(product 1, 5), (product 1,
7)]` — the same product twice with different values — the *second* run of
`syncInventory` still computes non-zero differences and creates two new
movements, refuting "for every list of entries ... zero new movements". -/
theorem sync_second_run_counterexample :
    (Inventory.syncInventory
      (Inventory.syncInventory stateEx
        [⟨1, 5, none, none⟩, ⟨1, 7, none, none⟩]).1
      [⟨1, 5, none, none⟩, ⟨1, 7, none, none⟩]).2.movements_created = 2 ∧
    ¬((Inventory.syncInventory
      (Inventory.syncInventory stateEx
        [⟨1, 5, none, none⟩, ⟨1, 7, none, none⟩]).1
      [⟨1, 5, none, none⟩, ⟨1, 7, none, none⟩]).2.movements_created = 0) := by
  refine ⟨rfl, by decide⟩

/-- **C6 amended**: for every batch whose entries name pairwise-distinct
products, a second run with the same `external_stock` values computes a
zero difference for every entry and therefore creates zero movements and
zero stock updates. -/
theorem sync_idempotent_on_distinct_products
    (s : InventoryState) (items : List SyncItem)
    (hnd : (items.map (fun i => i.product_id)).Nodup) :
    (Inventory.syncInventory
      (Inventory.syncInventory s items).1 items).2.movements_created = 0 ∧
    (Inventory.syncInventory
      (Inventory.syncInventory s items).1 items).2.updated = 0 := by
  have hclean : ∀ item ∈ items, ∀ p',
      (Inventory.syncInventory s items).1.products item.product_id =
        some p' →
      p'.current_stock = item.external_stock := by
    intro item hitem p' hp'
    cases hl : s.products item.product_id with
    | none =>
      rw [syncInventory_products_none hl] at hp'
      cases hp'
    | some p =>
      obtain ⟨p'', hp'', hstock⟩ := syncInventory_sets_stock hnd item hitem p hl
      rw [hp''] at hp'
      rw [← Option.some.inj hp']
      exact hstock
  have hres := syncInventory_clean hclean
  exact ⟨hres.2.1, hres.2.2⟩

/-- Witness for the amended C6: one-entry batch on product 1. -/
theorem sync_idempotent_witness :
    (Inventory.syncInventory
      (Inventory.syncInventory stateEx [⟨1, 5, none, none⟩]).1
      [⟨1, 5, none, none⟩]).2.movements_created = 0 ∧
    (Inventory.syncInventory
      (Inventory.syncInventory stateEx [⟨1, 5, none, none⟩]).1
      [⟨1, 5, none, none⟩]).2.updated = 0 :=
  sync_idempotent_on_distinct_products stateEx [⟨1, 5, none, none⟩]
    (by decide)

/-! ### Claim C7: insight generation (`Insights` model)

`Insights.create` builds `insight_id` as
`` `${type}_${Date.now()}_${random}` `` and INSERTs unconditionally; no
query of existing insights precedes the insert anywhere in the generator.
Time is modeled as milliseconds (`Nat`), and `Date.now()`/the random
suffix are inputs.  The JSONB `data` payload is represented by the list of
affected product SKUs; the returned array of created insights is not
modeled (no claim observes it). -/

/-- A row of the per-tenant `insights` table. -/
structure InsightRec where
  insight_id : String
  triggered_by : String
  type : String
  priority : String
  title : String
  description : String
  recommendation : String
  business_impact : String
  confidence : ℚ
  channels : List String
  data_skus : List String
  expires_at : Option Nat
deriving DecidableEq, Repr

/-- The `insightData` argument of `Insights.create` (everything except
the generated `insight_id`). -/
structure InsightData where
  triggered_by : String
  type : String
  priority : String
  title : String
  description : String
  recommendation : String
  business_impact : String
  confidence : ℚ
  channels : List String
  data_skus : List String
  expires_at : Option Nat
deriving DecidableEq, Repr

/-- Insertion into a list ordered by `le` (models SQL `ORDER BY`; the
relative order of ties is unspecified in SQL). -/
def insertSorted (le : α → α → Bool) (x : α) : List α → List α
  | [] => [x]
  | y :: ys => if le x y then x :: y :: ys else y :: insertSorted le x ys

/-- Insertion sort by `le` (models SQL `ORDER BY`). -/
def sortedBy (le : α → α → Bool) : List α → List α
  | [] => []
  | x :: xs => insertSorted le x (sortedBy le xs)

namespace Insights

/-- `Insights.create`: generate the unique id from the clock and a random
suffix, then INSERT — unconditionally; existing rows are never consulted. -/
def create (st : List InsightRec) (now : Nat) (rand : String)
    (d : InsightData) : List InsightRec × InsightRec :=
  let row : InsightRec :=
    { insight_id := d.type ++ "_" ++ toString now ++ "_" ++ rand
      triggered_by := d.triggered_by
      type := d.type
      priority := d.priority
      title := d.title
      description := d.description
      recommendation := d.recommendation
      business_impact := d.business_impact
      confidence := d.confidence
      channels := d.channels
      data_skus := d.data_skus
      expires_at := d.expires_at }
  (st ++ [row], row)

/-- `Insights.generateInventoryInsights`: the three inventory rules, each
reading the `products` table and calling `create` when its condition
holds.  Returns the updated `insights` table. -/
def generateInventoryInsights (products : List ProductRec)
    (st : List InsightRec) (now : Nat) (r1 r2 r3 : String) :
    List InsightRec :=
  -- 1. products with current_stock = 0 (critical), LIMIT 10
  let outOfStock :=
    (products.filter (fun p => p.current_stock == 0 && p.active)).take 10
  let st1 :=
    if outOfStock.isEmpty then st
    else (create st now r1
      { triggered_by := "inventory_monitor", type := "alert",
        priority := "critical",
        title := "🚨 " ++ toString outOfStock.length ++
          " productos sin stock",
        description := "Se detectaron " ++ toString outOfStock.length ++
          " productos completamente agotados que requieren reabastecimiento inmediato.",
        recommendation := "Revisar y programar pedidos urgentes para evitar pérdida de ventas.",
        business_impact := "Alto riesgo de pérdida de ventas y clientes insatisfechos.",
        confidence := 95/100,
        channels := ["dashboard", "whatsapp", "email"],
        data_skus := outOfStock.map (fun p => p.sku),
        expires_at := some (now + 7 * 24 * 60 * 60 * 1000) }).1
  -- 2. products with 0 < stock <= min threshold (high), ordered by
  --    stock/threshold ascending, LIMIT 15
  let lowStock :=
    (sortedBy (fun a b => decide
        ((a.current_stock : ℚ) / (a.min_stock_threshold : ℚ) ≤
          (b.current_stock : ℚ) / (b.min_stock_threshold : ℚ)))
      (products.filter (fun p => decide (0 < p.current_stock) &&
        decide (p.current_stock ≤ p.min_stock_threshold) &&
        p.active))).take 15
  let st2 :=
    if lowStock.isEmpty then st1
    else (create st1 now r2
      { triggered_by := "inventory_monitor", type := "alert",
        priority := "high",
        title := "⚠️ " ++ toString lowStock.length ++
          " productos con stock bajo",
        description := "Se identificaron " ++ toString lowStock.length ++
          " productos cerca del límite mínimo de stock.",
        recommendation := "Programar pedidos de reabastecimiento en los próximos días.",
        business_impact := "Riesgo medio de agotamiento si no se actúa pronto.",
        confidence := 90/100,
        channels := ["dashboard", "whatsapp"],
        data_skus := lowStock.map (fun p => p.sku),
        expires_at := some (now + 5 * 24 * 60 * 60 * 1000) }).1
  -- 3. products with stock > max threshold (medium), ordered by stock
  --    descending, LIMIT 10
  let overStock :=
    (sortedBy (fun a b => decide (b.current_stock ≤ a.current_stock))
      (products.filter (fun p =>
        decide (p.max_stock_threshold < p.current_stock) &&
        p.active))).take 10
  let st3 :=
    if overStock.isEmpty then st2
    else (create st2 now r3
      { triggered_by := "inventory_monitor", type := "opportunity",
        priority := "medium",
        title := "💰 Oportunidad: " ++ toString overStock.length ++
          " productos sobrestockeados",
        description := "Se detectaron productos con stock excesivo que representa capital inmovilizado.",
        recommendation := "Considerar promociones o descuentos para rotar el inventario excesivo.",
        business_impact := "Liberar capital inmovilizado y optimizar flujo de caja.",
        confidence := 85/100,
        channels := ["dashboard"],
        data_skus := overStock.map (fun p => p.sku),
        expires_at := some (now + 14 * 24 * 60 * 60 * 1000) }).1
  st3

/-- The `is_active` computation of the insights queries:
`expires_at IS NULL OR expires_at > CURRENT_TIMESTAMP`. -/
def activeAt (row : InsightRec) (t : Nat) : Bool :=
  match row.expires_at with
  | none => true
  | some e => decide (t < e)

/-- Number of stored advisories that are active at `t` and share the
given rule identity (`triggered_by`, `type`, `priority`) — the natural
key the de-duplication claim speaks about. -/
def countMatching (st : List InsightRec) (trig ty pr : String) (t : Nat) :
    Nat :=
  (st.filter (fun r => r.triggered_by == trig && r.type == ty &&
    r.priority == pr && activeAt r t)).length

end Insights

/-- A fully stocked-out active product. -/
def productZero : ProductRec :=
  { sku := "SKU-0", name := "Agotado", category := "general",
    brand := "ACME", cost_price := 2, selling_price := 3,
    current_stock := 0, min_stock_threshold := 10,
    max_stock_threshold := 1000, active := true }

theorem countMatching_append (st rows : List InsightRec)
    (trig ty pr : String) (t : Nat) :
    Insights.countMatching (st ++ rows) trig ty pr t =
      Insights.countMatching st trig ty pr t +
        Insights.countMatching rows trig ty pr t := by
  simp [Insights.countMatching, List.filter_append]

/-- Each run of the inventory generator in which the stockout rule fires
appends exactly one further `critical` advisory for the rule's natural
key (`inventory_monitor`/`alert`/`critical`) — no existing row prevents
the insert. -/
theorem generate_adds_one_critical
    (products : List ProductRec) (st : List InsightRec) (now t : Nat)
    (r1 r2 r3 : String)
    (hfire : ((products.filter (fun p => p.current_stock == 0 &&
        p.active)).take 10).isEmpty = false)
    (ht : t < now + 7 * 24 * 60 * 60 * 1000) :
    Insights.countMatching
      (Insights.generateInventoryInsights products st now r1 r2 r3)
      "inventory_monitor" "alert" "critical" t =
      Insights.countMatching st "inventory_monitor" "alert" "critical" t
        + 1 := by
  have hd : decide (t < now + 7 * 24 * 60 * 60 * 1000) = true :=
    decide_eq_true ht
  have hc1 : ¬((products.filter (fun p => p.current_stock == 0 &&
      p.active)).take 10).isEmpty = true := by
    simp only [hfire]
    exact Bool.false_ne_true
  unfold Insights.generateInventoryInsights
  simp only [Insights.create]
  rw [if_neg hc1]
  split <;> split <;>
    simp [countMatching_append, Insights.countMatching, Insights.activeAt,
      List.filter_cons, hd]

/-- **C7 counterexample**: one stocked-out product, an empty insights
table, and two generator runs one hour apart (well inside the claimed 24h
window): afterwards *two* active advisories exist for the stockout rule's
natural key, not one — no de-duplication check exists anywhere. -/
theorem insight_dedup_counterexample :
    Insights.countMatching
      (Insights.generateInventoryInsights [productZero]
        (Insights.generateInventoryInsights [productZero] [] 0 "a" "b" "c")
        3600000 "d" "e" "f")
      "inventory_monitor" "alert" "critical" 3600000 = 2 ∧
    ¬(Insights.countMatching
      (Insights.generateInventoryInsights [productZero]
        (Insights.generateInventoryInsights [productZero] [] 0 "a" "b" "c")
        3600000 "d" "e" "f")
      "inventory_monitor" "alert" "critical" 3600000 = 1) := by
  refine ⟨rfl, by decide⟩

/-- **C7 amended**: the engine performs no de-duplication: every run
whose rule condition holds inserts a fresh advisory (under a fresh
`insight_id` built from the clock and a random suffix), so two runs
within any window yield two further active advisories for the rule's
natural key, not one. -/
theorem insight_generation_no_dedup
    (products : List ProductRec) (st : List InsightRec)
    (now1 now2 t : Nat) (r1 r2 r3 r4 r5 r6 : String)
    (hfire : ((products.filter (fun p => p.current_stock == 0 &&
        p.active)).take 10).isEmpty = false)
    (ht1 : t < now1 + 7 * 24 * 60 * 60 * 1000)
    (ht2 : t < now2 + 7 * 24 * 60 * 60 * 1000) :
    Insights.countMatching
      (Insights.generateInventoryInsights products
        (Insights.generateInventoryInsights products st now1 r1 r2 r3)
        now2 r4 r5 r6) "inventory_monitor" "alert" "critical" t =
      Insights.countMatching st "inventory_monitor" "alert" "critical" t
        + 2 := by
  rw [generate_adds_one_critical products _ now2 t r4 r5 r6 hfire ht2]
  rw [generate_adds_one_critical products st now1 t r1 r2 r3 hfire ht1]

/-- Witness for the amended C7: two runs over one stocked-out product add
two critical advisories to the empty table. -/
theorem insight_generation_no_dedup_witness :
    Insights.countMatching
      (Insights.generateInventoryInsights [productZero]
        (Insights.generateInventoryInsights [productZero] [] 0 "a" "b" "c")
        3600000 "d" "e" "f") "inventory_monitor" "alert" "critical" 1000 =
      Insights.countMatching [] "inventory_monitor" "alert" "critical" 1000
        + 2 :=
  insight_generation_no_dedup [productZero] [] 0 3600000 1000
    "a" "b" "c" "d" "e" "f" (by decide) (by decide) (by decide)

/-! ### Claim C8: tenant resolution (`tenantMiddleware`)

The middleware inspects, in one `if`/`else if` chain: the `X-Tenant`
header, the hostname's subdomain, `req.params.tenantCode`, a regex over
`req.path`, and `?tenant=`.  JS truthiness (empty string falsy) is
modeled through the character data of the strings. -/

/-- The request signals the middleware reads. -/
structure Request where
  xTenantHeader : Option String
  hostname : Option String
  paramsTenantCode : Option String
  path : String
  queryTenant : Option String
deriving DecidableEq, Repr

/-- JS truthiness of a possibly-absent string. -/
def truthyOpt : Option String → Bool
  | none => false
  | some s => !s.data.isEmpty

/-- JS `hostname.split('.')` on character lists. -/
def splitCharsOnDot : List Char → List (List Char)
  | [] => [[]]
  | c :: cs =>
    let r := splitCharsOnDot cs
    if c == '.' then [] :: r
    else
      match r with
      | [] => [[c]]
      | g :: gs => (c :: g) :: gs

/-- JS `hostname.split('.')`. -/
def jsSplitDot (s : String) : List String :=
  (splitCharsOnDot s.data).map String.mk

/-- The body of the subdomain branch: first host part, unless falsy or a
reserved `www`/`api` subdomain. -/
def subdomainOf (h : String) : Option String :=
  let hostParts := jsSplitDot h
  if hostParts.length ≥ 2 then
    match hostParts.head? with
    | some subdomain =>
      if !subdomain.data.isEmpty && subdomain != "www" &&
          subdomain != "api" then
        some subdomain
      else none
    | none => none
  else none

/-- The guard of the subdomain branch:
`req.hostname && req.hostname !== 'localhost' &&
!req.hostname.startsWith('127.0.0.1')`. -/
def hostnameBranch (r : Request) : Bool :=
  match r.hostname with
  | none => false
  | some h => !h.data.isEmpty && h != "localhost" &&
      !(startsWithChars h.data "127.0.0.1".data)

/-- What the subdomain branch assigns to `tenantCode` once its guard has
fired: the hostname's subdomain, or nothing when the branch leaves
`tenantCode` null. -/
def hostnameBranchValue (r : Request) : Option String :=
  match r.hostname with
  | some h => subdomainOf h
  | none => none

/-- The path regex `^\/api\/tenant\/([^\/]+)\//`: a non-empty segment
after `/api/tenant/`, terminated by a further slash. -/
def pathTenantCapture (path : String) : Option String :=
  if startsWithChars path.data "/api/tenant/".data then
    let rest := path.data.drop 12
    let seg := rest.takeWhile (fun c => c != '/')
    if seg.isEmpty then none
    else if (rest.drop seg.length).head? = some '/' then
      some (String.mk seg)
    else none
  else none

/-- The tenant-agnostic whitelist (`publicRoutes`). -/
def publicRoutes : List String :=
  ["/api/health", "/api/system", "/api/admin", "/api/tenants",
   "/favicon.ico"]

/-- `publicRoutes.some(route => req.path.startsWith(route))`. -/
def isPublicRoute (path : String) : Bool :=
  publicRoutes.any (fun route => startsWithChars path.data route.data)

/-- The `if`/`else if` chain of `tenantMiddleware` that determines
`tenantCode`; a branch whose guard holds is final even when it yields no
tenant. -/
def resolveTenantCode (r : Request) : Option String :=
  if truthyOpt r.xTenantHeader then r.xTenantHeader
  else if hostnameBranch r then hostnameBranchValue r
  else if truthyOpt r.paramsTenantCode then r.paramsTenantCode
  else if startsWithChars r.path.data "/api/tenant/".data then
    pathTenantCapture r.path
  else if truthyOpt r.queryTenant then r.queryTenant
  else none

/-- The four identification methods listed in the `TENANT_REQUIRED`
response body. -/
def tenantRequiredMethods : List (String × String) :=
  [("header", "X-Tenant: abc123"),
   ("subdomain", "abc123.fluxionai.com"),
   ("url_param", "/api/tenant/abc123/products"),
   ("query_param", "/api/products?tenant=abc123")]

/-- The tenant-absence gate of the middleware: with no resolved code and
a non-whitelisted path, answer `400 TENANT_REQUIRED` with the four
methods; otherwise fall through (to registry validation / `next()`). -/
def middlewareGate (r : Request) :
    Option (Nat × String × List (String × String)) :=
  match resolveTenantCode r with
  | none =>
    if !isPublicRoute r.path then
      some (400, "TENANT_REQUIRED", tenantRequiredMethods)
    else none
  | some _ => none

/-- First-match-wins over the raw signals, as the spec words it. -/
def firstTruthy : List (Option String) → Option String
  | [] => none
  | o :: rest => if truthyOpt o then o else firstTruthy rest

/-- A captured path tenant segment is never the empty string. -/
theorem pathTenantCapture_nonempty {path c : String}
    (h : pathTenantCapture path = some c) : c.data.isEmpty = false := by
  unfold pathTenantCapture at h
  split at h
  · simp only [] at h
    split at h
    · cases h
    · next hempty =>
      split at h
      · rw [← Option.some.inj h]
        simp only [Bool.not_eq_true] at hempty
        exact hempty
      · cases h
  · cases h

/-- **C8 counterexample**: a request whose hostname is
`api.fluxionai.com` (a reserved subdomain, hence an empty subdomain
signal), no header, no URL parameter, and a *non-empty* query signal
`?tenant=acme`: the chain stops at the subdomain branch and resolves
nothing, so the middleware answers `TENANT_REQUIRED` although the first
non-empty signal in the claimed precedence order is the query value. -/
theorem tenant_resolution_counterexample :
    resolveTenantCode
      { xTenantHeader := none, hostname := some "api.fluxionai.com",
        paramsTenantCode := none, path := "/api/products",
        queryTenant := some "acme" } = none ∧
    truthyOpt (some "acme") = true ∧
    middlewareGate
      { xTenantHeader := none, hostname := some "api.fluxionai.com",
        paramsTenantCode := none, path := "/api/products",
        queryTenant := some "acme" } =
      some (400, "TENANT_REQUIRED", tenantRequiredMethods) := by
  refine ⟨rfl, rfl, rfl⟩

/-- The derived subdomain signal: what the hostname contributes to the
precedence — the subdomain of a non-local hostname, and nothing for
local hosts, reserved `www`/`api` subdomains, or undotted hostnames. -/
def subdomainSignal (r : Request) : Option String :=
  if hostnameBranch r then hostnameBranchValue r else none

/-- A subdomain the branch accepts is never the empty string. -/
theorem subdomainOf_nonempty {h c : String}
    (hs : subdomainOf h = some c) : c.data.isEmpty = false := by
  unfold subdomainOf at hs
  simp only [] at hs
  split at hs
  · split at hs
    · split at hs
      · next hcond =>
        rw [← Option.some.inj hs]
        simp only [Bool.and_eq_true, Bool.not_eq_true'] at hcond
        exact hcond.1.1
      · cases hs
    · cases hs
  · cases hs

/-- A tenant code produced by the subdomain branch is never empty. -/
theorem hostnameBranchValue_nonempty {r : Request} {c : String}
    (h : hostnameBranchValue r = some c) : c.data.isEmpty = false := by
  unfold hostnameBranchValue at h
  split at h
  · exact subdomainOf_nonempty h
  · cases h

/-- The tail of the resolution chain — URL parameter, path regex, query
— equals first-match-wins over those three signals, provided a path
match attempt that fires also captures (the path exception). -/
theorem precedence_tail (r : Request)
    (hpath : startsWithChars r.path.data "/api/tenant/".data = true →
      (pathTenantCapture r.path).isSome) :
    (if truthyOpt r.paramsTenantCode then r.paramsTenantCode
     else if startsWithChars r.path.data "/api/tenant/".data then
       pathTenantCapture r.path
     else if truthyOpt r.queryTenant then r.queryTenant
     else none) =
    firstTruthy [r.paramsTenantCode, pathTenantCapture r.path,
      r.queryTenant] := by
  by_cases h3 : truthyOpt r.paramsTenantCode = true
  · rw [if_pos h3]
    unfold firstTruthy
    rw [if_pos h3]
  · rw [if_neg h3]
    unfold firstTruthy
    rw [if_neg h3]
    by_cases h4 : startsWithChars r.path.data "/api/tenant/".data = true
    · rw [if_pos h4]
      obtain ⟨c, hc⟩ := Option.isSome_iff_exists.mp (hpath h4)
      rw [hc]
      unfold firstTruthy
      rw [if_pos (by
        simp [truthyOpt, pathTenantCapture_nonempty hc])]
    · rw [if_neg h4]
      have hnone : pathTenantCapture r.path = none := by
        unfold pathTenantCapture
        rw [if_neg h4]
      rw [hnone]
      unfold firstTruthy
      have hqnone : ¬(truthyOpt (none : Option String) = true) := by
        simp [truthyOpt]
      rw [if_neg hqnone]
      by_cases h5 : truthyOpt r.queryTenant = true
      · rw [if_pos h5]
        unfold firstTruthy
        rw [if_pos h5]
      · rw [if_neg h5]
        unfold firstTruthy
        rw [if_neg h5]
        rfl

/-- **C8 amended**: tenant resolution picks the first non-empty signal
in the precedence order header > derived subdomain > URL parameter >
path segment > query, except in the two cases where a branch consumes
the chain without yielding a tenant: a non-local hostname whose
subdomain is reserved (`www`/`api`) or missing, and a path starting
`/api/tenant/` without a terminating slash.  Outside those two cases
the precedence holds for every request — in particular a live subdomain
resolves and is beaten only by the header; and whenever nothing resolves
on a non-whitelisted route the middleware answers `400 TENANT_REQUIRED`
describing the four methods. -/
theorem tenant_resolution_precedence_amended (r : Request)
    (hhost : hostnameBranch r = true → (subdomainSignal r).isSome)
    (hpath : startsWithChars r.path.data "/api/tenant/".data = true →
      (pathTenantCapture r.path).isSome) :
    resolveTenantCode r = firstTruthy [r.xTenantHeader, subdomainSignal r,
      r.paramsTenantCode, pathTenantCapture r.path, r.queryTenant] ∧
    (resolveTenantCode r = none → isPublicRoute r.path = false →
      middlewareGate r =
        some (400, "TENANT_REQUIRED", tenantRequiredMethods) ∧
      tenantRequiredMethods.length = 4) := by
  constructor
  · unfold resolveTenantCode firstTruthy
    by_cases h1 : truthyOpt r.xTenantHeader = true
    · rw [if_pos h1, if_pos h1]
    · rw [if_neg h1, if_neg h1]
      by_cases h2 : hostnameBranch r = true
      · rw [if_pos h2]
        obtain ⟨sub, hsub⟩ := Option.isSome_iff_exists.mp (hhost h2)
        have hv : hostnameBranchValue r = some sub := by
          have hss := hsub
          unfold subdomainSignal at hss
          rw [if_pos h2] at hss
          exact hss
        have htr : truthyOpt (subdomainSignal r) = true := by
          rw [hsub]
          simp [truthyOpt, hostnameBranchValue_nonempty hv]
        unfold firstTruthy
        rw [if_pos htr, hsub, hv]
      · have hs0 : subdomainSignal r = none := by
          unfold subdomainSignal
          rw [if_neg h2]
        rw [if_neg h2]
        unfold firstTruthy
        rw [hs0]
        rw [if_neg (by simp [truthyOpt] :
          ¬(truthyOpt (none : Option String) = true))]
        exact precedence_tail r hpath
  · intro hres hpub
    refine ⟨?_, rfl⟩
    unfold middlewareGate
    rw [hres]
    simp [hpub]

/-- A request carrying a live tenant subdomain and a competing query
signal. -/
def reqSubdomain : Request :=
  { xTenantHeader := none, hostname := some "acme.fluxionai.com",
    paramsTenantCode := none, path := "/api/products",
    queryTenant := some "zzz" }

/-- Witness for the amended C8: with no header, hostname
`acme.fluxionai.com` and a competing `?tenant=zzz`, resolution follows
the precedence and picks the subdomain `acme`. -/
theorem tenant_resolution_precedence_witness :
    resolveTenantCode reqSubdomain =
      firstTruthy [reqSubdomain.xTenantHeader, subdomainSignal reqSubdomain,
        reqSubdomain.paramsTenantCode, pathTenantCapture reqSubdomain.path,
        reqSubdomain.queryTenant] ∧
    resolveTenantCode reqSubdomain = some "acme" :=
  ⟨(tenant_resolution_precedence_amended reqSubdomain
      (by decide) (by decide)).1, rfl⟩

/-! ### Claim C9: tenant deletion (`TenantService.deleteTenant`) -/

/-- A row of `public.tenants` (the fields deletion observes). -/
structure TenantRec where
  tenant_code : String
  company_name : String
  active : Bool
deriving DecidableEq, Repr

/-- The tenant registry (`public.tenants`) plus the set of existing
partition schemas. -/
structure AdminState where
  tenants : List TenantRec
  schemas : List String
deriving DecidableEq, Repr

namespace TenantService

/-- `TenantService.getTenant`: the active record with this code (the
derived schema name is `tenant_<code>`). -/
def getTenant (st : AdminState) (code : String) : Option TenantRec :=
  (st.tenants.filter (fun t => t.tenant_code == code && t.active)).head?

/-- `TenantService.deleteTenant`: throws unless the explicit confirmation
flag is passed; reads the tenant (throwing when absent); runs
`DROP SCHEMA IF EXISTS "tenant_<code>" CASCADE` — whose possible failure
is the `dropFails` input — and only after a successful drop deletes the
registry row.  Every throw happens before the registry DELETE, so a
failing drop leaves the registry intact; the catch block rewraps thrown
messages. -/
def deleteTenant (st : AdminState) (code : String) (confirmDelete : Bool)
    (dropFails : Bool) : Except String AdminState :=
  if !confirmDelete then
    .error "Debe confirmar explícitamente la eliminación del tenant"
  else
    match getTenant st code with
    | none =>
      .error ("Error eliminando tenant: Tenant " ++ code ++
        " no encontrado")
    | some _ =>
      if dropFails then
        .error "Error eliminando tenant: no se pudo eliminar el schema"
      else
        .ok { tenants :=
                st.tenants.filter (fun t => !(t.tenant_code == code)),
              schemas :=
                st.schemas.filter (fun sch => !(sch == "tenant_" ++ code)) }

end TenantService

namespace Routes

/-- `DELETE /api/admin/tenants/:tenantCode`: demands
`?confirm=DELETE_EVERYTHING` (else `400 CONFIRMATION_REQUIRED`), then
calls `deleteTenant(code, true)`; a throw maps to
`500 DELETE_TENANT_ERROR`.  Returns the resulting registry state, the
HTTP status and the error code. -/
def deleteTenantRoute (st : AdminState) (code : String)
    (confirmQuery : Option String) (dropFails : Bool) :
    AdminState × Nat × Option String :=
  if confirmQuery ≠ some "DELETE_EVERYTHING" then
    (st, 400, some "CONFIRMATION_REQUIRED")
  else
    match TenantService.deleteTenant st code true dropFails with
    | .ok st' => (st', 200, none)
    | .error _ => (st, 500, some "DELETE_TENANT_ERROR")

end Routes

/-- **C9**: tenant deletion (a) answers `400 CONFIRMATION_REQUIRED` and
changes nothing whenever the explicit `DELETE_EVERYTHING` token is
absent, (b) never succeeds at the service layer without the confirmation
flag, (c) leaves the registry untouched whenever the partition drop
fails (the DELETE runs only after a successful drop), and (d) on success
removes both the registry record and the partition schema — so no
deleted record can point at a live partition. -/
theorem tenant_delete_confirmation_and_atomicity
    (st : AdminState) (code : String) :
    (∀ q df, q ≠ some "DELETE_EVERYTHING" →
      Routes.deleteTenantRoute st code q df =
        (st, 400, some "CONFIRMATION_REQUIRED")) ∧
    (∀ df st', TenantService.deleteTenant st code false df ≠ .ok st') ∧
    (Routes.deleteTenantRoute st code (some "DELETE_EVERYTHING") true).1 =
      st ∧
    (∀ st', TenantService.deleteTenant st code true false = .ok st' →
      TenantService.getTenant st' code = none ∧
      ("tenant_" ++ code) ∉ st'.schemas) := by
  refine ⟨?_, ?_, ?_, ?_⟩
  · intro q df hq
    unfold Routes.deleteTenantRoute
    rw [if_pos hq]
  · intro df st' hcontra
    unfold TenantService.deleteTenant at hcontra
    simp at hcontra
  · unfold Routes.deleteTenantRoute
    rw [if_neg (by simp)]
    unfold TenantService.deleteTenant
    simp only [Bool.not_true, Bool.false_eq_true, if_false]
    cases TenantService.getTenant st code <;> simp
  · intro st' hok
    unfold TenantService.deleteTenant at hok
    simp only [Bool.not_true, Bool.false_eq_true, if_false] at hok
    cases hg : TenantService.getTenant st code with
    | none => rw [hg] at hok; cases hok
    | some t =>
      rw [hg] at hok
      simp only [if_neg (by simp : ¬(false = true))] at hok
      have hst' := (Except.ok.inj hok).symm
      subst hst'
      constructor
      · unfold TenantService.getTenant
        rw [List.head?_eq_none_iff, List.filter_eq_nil_iff]
        intro t' ht'
        have := (List.mem_filter.mp ht').2
        simp only [Bool.not_eq_true'] at this
        simp [this]
      · intro hmem
        have := (List.mem_filter.mp hmem).2
        simp at this

/-- An active example tenant `acme`. -/
def tenantAcme : TenantRec :=
  { tenant_code := "acme", company_name := "ACME C.A.", active := true }

/-- A registry holding `acme` and its partition schema. -/
def adminEx : AdminState :=
  { tenants := [tenantAcme], schemas := ["tenant_acme"] }

/-- Witness for C9: the unconfirmed route call on the `acme` registry is
refused with the state unchanged. -/
theorem tenant_delete_confirmation_witness :
    Routes.deleteTenantRoute adminEx "acme" none false =
      (adminEx, 400, some "CONFIRMATION_REQUIRED") :=
  (tenant_delete_confirmation_and_atomicity adminEx "acme").1
    none false (by decide)

/-! ### Claim C10: the stored unit cost of a movement -/

/-- `Inventory.recordMovement` of the legacy single-tenant model
(`Inventory-original.js`): only `entrada`/`salida` kinds, the product
must exist and be active (one `WHERE active = true` query, modeled as
lookup plus activity test), the resulting stock must be non-negative, and
the stored cost is `cost_per_unit || product.cost_price` — JS `||`, so
`null`, `undefined` and `0` all fall back to the product's cost. -/
def recordMovementOriginal (s : InventoryState) (d : MovementData) :
    Except String (InventoryState × Movement) :=
  if !(d.movement_type == "entrada" || d.movement_type == "salida") then
    .error ("Tipo de movimiento inválido: " ++ d.movement_type)
  else
    match s.products d.product_id with
    | none =>
      .error ("Producto con ID " ++ toString d.product_id ++
        " no encontrado o inactivo")
    | some p =>
      if !p.active then
        .error ("Producto con ID " ++ toString d.product_id ++
          " no encontrado o inactivo")
      else
        let previousStock := p.current_stock
        let adjustedQuantity :=
          if d.movement_type == "entrada" then intAbs d.quantity
          else -intAbs d.quantity
        let newStock := previousStock + adjustedQuantity
        if newStock < 0 then
          .error "Stock insuficiente"
        else
          let finalCostPerUnit :=
            match d.cost_per_unit with
            | none => p.cost_price
            | some c => if c = 0 then p.cost_price else c
          let m : Movement :=
            { product_id := d.product_id,
              movement_type := d.movement_type,
              quantity := adjustedQuantity,
              previous_stock := previousStock, new_stock := newStock,
              cost_per_unit := some finalCostPerUnit,
              reference_type := d.reference_type,
              reference_id := d.reference_id, notes := d.notes }
          .ok (Inventory.updateStock
            { s with movements := s.movements ++ [m] }
            d.product_id newStock, m)

/-- **C10 counterexample**: the multi-tenant `addMovement` — the code
path behind `POST /movements` — inserts the supplied `cost_per_unit`
as-is; with none supplied the stored cost is NULL, not the product's
cost price of 2. -/
theorem cost_per_unit_null_counterexample :
    (Inventory.addMovement stateEx
      { product_id := 1, movement_type := "entrada", quantity := 10,
        cost_per_unit := none, reference_type := "compra",
        reference_id := none, notes := "" }).toOption.map
      (fun r => r.2.cost_per_unit) = some none ∧
    ¬(some (none : Option ℚ) = some (some productEx.cost_price)) := by
  refine ⟨rfl, by decide⟩

/-- **C10 amended**: only the legacy `recordMovement` defaults a missing
unit cost to the product's current cost price; the multi-tenant
`addMovement` stores the supplied value unchanged, leaving a missing cost
NULL. -/
theorem cost_per_unit_default_amended :
    (∀ (s : InventoryState) (d : MovementData) (p : ProductRec) r,
      s.products d.product_id = some p →
      d.cost_per_unit = none →
      recordMovementOriginal s d = .ok r →
      r.2.cost_per_unit = some p.cost_price) ∧
    (∀ (s : InventoryState) (d : MovementData) r,
      d.cost_per_unit = none →
      Inventory.addMovement s d = .ok r →
      r.2.cost_per_unit = none) := by
  constructor
  · intro s d p r hp hc h
    unfold recordMovementOriginal at h
    rw [hc, hp] at h
    simp only [] at h
    repeat' split at h
    all_goals cases h
    all_goals rfl
  · intro s d r hc h
    obtain ⟨s', m⟩ := r
    obtain ⟨p, sc, _, _, _, _, _, _, hcost, _, _, _, _⟩ :=
      addMovementInner_ok (addMovement_ok_iff.mp h)
    rw [hcost, hc]

/-- Witness for the amended C10: the legacy model with no cost supplied
stores the product's cost price. -/
theorem cost_per_unit_default_witness :
    ∃ r, recordMovementOriginal stateEx
      { product_id := 1, movement_type := "entrada", quantity := 10,
        cost_per_unit := none, reference_type := "compra",
        reference_id := none, notes := "" } = .ok r ∧
    r.2.cost_per_unit = some productEx.cost_price := by
  refine ⟨_, rfl, cost_per_unit_default_amended.1 stateEx
    { product_id := 1, movement_type := "entrada", quantity := 10,
      cost_per_unit := none, reference_type := "compra",
      reference_id := none, notes := "" } productEx _ rfl rfl rfl⟩

end Fluxion
